import Mathlib

/-!
Verification of the Hajj-Auth-System boarding/trip workflow engine.

Shallow embedding of the Python sources:
- `logic/workflow_phase.py`   → `WorkflowPhase`
- `logic/user_workflow_helpers.py` → `verify_nfc_data`, `verify_fingerprint`,
  `perform_headcount_check`, `handle_door_status`
- `logic/user_workflow.py`    → `Workflow` state and its handler functions
- `ui/pyside6_scenes.py`      → `SceneType`, `PinEntry.verify_pin`,
  `SceneManager.handle_pin_verified`
- `hardware/fingerprint_adafruit.py` / `hardware/camera_manager.py` →
  sensor oracles (`FingerResult`, `CameraManager`)

Python exceptions are modelled with `Except` (a raised exception is `.error`),
Python `None`/falsy results with `Option`, and `QTimer.singleShot` deferred
callbacks as explicit `Event`s emitted by each handler.  The Python
conversion `int(s)` is modelled by the kernel-computable `py_int`
(failure = raised `ValueError`).
-/

namespace HajjAuth

/-- `WorkflowPhase` enum from `logic/workflow_phase.py`:
PHASE_ONE = NFC scanning and fingerprint verification (BOARDING),
PHASE_TWO = PIN entry and trip management (TRIP). -/
inductive WorkflowPhase where
  | PHASE_ONE
  | PHASE_TWO
deriving DecidableEq, Repr

/-- `SceneType` enum from `ui/pyside6_scenes.py`. -/
inductive SceneType where
  | CARD_SCAN
  | FINGER_SCAN
  | SUCCESS
  | WAIT
  | FINGER_FAILED
  | CARD_FAILED
  | INVALID_FINGERPRINT
  | ACCESS_DENIED
  | PIN_ENTRY
  | TRIP_COMPLETE
  | HEADCOUNT_PROCESSING
  | HEADCOUNT_RESULT
deriving DecidableEq, Repr

/-- The `fingerprint_data` JSON blob stored in a registry record
(`db/hajj_db.py`); `location` is kept as the string the DB stores
(the key `location` may be absent from the dict, hence `Option`). -/
structure FingerprintData where
  location : Option String
deriving DecidableEq, Repr

/-- One row of `get_hajj_records()` (`db/hajj_db.py` `_convert_record`):
`fingerprint_data` is `none` when the column is NULL/falsy. -/
structure HajjRecord where
  hajj_id : String
  name : String
  fingerprint_data : Option FingerprintData
deriving DecidableEq, Repr

/-- The dict returned by `FingerprintManager.check_specific_finger`
(`hardware/fingerprint_adafruit.py` lines 186-216) when it does not
return `None`.  The source always sets `matched = True` on this path and
reports the raw sensor `confidence` with no threshold check. -/
structure FingerResult where
  matched : Bool
  template_id : Int
  confidence : Int
deriving DecidableEq, Repr

/-- External collaborators consulted during one boarding attempt:
`get_hajj_records()` (which may raise → `.error`) and the fingerprint
sensor oracle `check_specific_finger(location)` (`none` models a timeout,
conversion failure, template-load failure or non-match, all of which make
the Python function return `None`). -/
structure Env where
  records : Except Unit (List HajjRecord)
  sensor : Int → Option FingerResult

/-- Camera adapter contract (`hardware/camera_manager.py`
`get_three_counts`): three person-count samples, or a raised exception
carrying its message string. -/
structure CameraManager where
  get_three_counts : Except String (Int × Int × Int)

/-- Decimal value of one digit character, `none` for a non-digit. -/
def digit_val (c : Char) : Option Nat :=
  if 48 ≤ c.toNat ∧ c.toNat ≤ 57 then some (c.toNat - 48) else none

/-- Accumulate decimal digits; `none` on the first non-digit. -/
def digits_nat : List Char → Nat → Option Nat
  | [], acc => some acc
  | c :: cs, acc =>
    match digit_val c with
    | none => none
    | some d => digits_nat cs (acc * 10 + d)

/-- Model of the Python conversion `int(s)` for the stored fingerprint
location: an optional leading minus sign followed by at least one decimal
digit; any other string raises `ValueError`, modelled as `none`. -/
def py_int (s : String) : Option Int :=
  match s.data with
  | [] => none
  | c :: cs =>
    if c = '-' then
      match cs with
      | [] => none
      | _ => (digits_nat cs 0).map fun n => -(n : Int)
    else
      match digit_val c with
      | none => none
      | some _ => (digits_nat s.data 0).map fun n => (n : Int)

/-- `verify_nfc_data` from `logic/user_workflow_helpers.py` lines 12-25:
with no encryption manager the raw payload is returned unchanged;
a decryption exception is caught and yields `None`. -/
def verify_nfc_data (nfc_data : String)
    (encryption_manager : Option (String → Except Unit String)) : Option String :=
  match encryption_manager with
  | none => some nfc_data
  | some em =>
    match em nfc_data with
    | .ok hajj_id => some hajj_id
    | .error _ => none

/-- `verify_fingerprint` from `logic/user_workflow_helpers.py` lines 28-53.
`search` models `fingerprint_manager.search_fingerprint()`:
`.error` = raised, `.ok none` = `(False, None, None)`,
`.ok (some (fp_id, confidence))` = `(True, fp_id, confidence)`.
The helper enforces the `min_confidence = 50` threshold and then requires a
registry record whose stored location equals `str(fp_id)` and whose
`hajj_id` equals the presented id. -/
def verify_fingerprint (records : Except Unit (List HajjRecord))
    (search : Except Unit (Option (Int × Int))) (hajj_id : String) : Bool :=
  match search with
  | .error _ => false
  | .ok none => false
  | .ok (some (fp_id, confidence)) =>
    if 50 ≤ confidence then
      match records with
      | .error _ => false
      | .ok recs =>
        recs.any fun record =>
          match record.fingerprint_data with
          | some fd => fd.location = some (toString fp_id) && record.hajj_id = hajj_id
          | none => false
    else false

/-- The result dict built by `perform_headcount_check`
(`logic/user_workflow_helpers.py` lines 55-89); it always carries all four
keys. -/
structure HeadcountResult where
  success : Bool
  message : String
  scanned_count : Int
  detected_count : Int
deriving DecidableEq, Repr

/-- `perform_headcount_check` from `logic/user_workflow_helpers.py`
lines 55-89.  `max(counts)` on the 3-tuple is `max c1 (max c2 c3)`;
a raised sampling exception is caught and leaves `detected_count` at its
initial 0. -/
def perform_headcount_check (camera_manager : Option CameraManager)
    (scanned_count : Int) : HeadcountResult :=
  let result : HeadcountResult :=
    { success := false, message := "", scanned_count := scanned_count,
      detected_count := 0 }
  match camera_manager with
  | none => { result with message := "No camera manager available" }
  | some cm =>
    match cm.get_three_counts with
    | .error e =>
      { result with message := "Error during headcount check: " ++ e }
    | .ok (c1, c2, c3) =>
      let head_count := max c1 (max c2 c3)
      let result := { result with detected_count := head_count }
      if head_count = scanned_count then
        { result with success := true, message := "Headcount verified" }
      else
        { result with
            message := "Headcount mismatch! Detected: " ++ toString head_count
              ++ ", Scanned: " ++ toString scanned_count }

/-- `handle_door_status` from `logic/user_workflow_helpers.py`
lines 91-99: `(door_open, should_continue)`. -/
def handle_door_status (door_status : Bool) : Bool × Bool :=
  (door_status, door_status)

/-- The mutable fields of `UserWorkflow` (`logic/user_workflow.py`
lines 46-56) that the handlers read or write.  `monitor_timer_active`
models whether `self.monitor_timer` is running. -/
structure Workflow where
  current_phase : WorkflowPhase
  hajj_id_scans : List String
  trip_number : Nat
  trip_start_time : Option Nat
  trip_end_time : Option Nat
  door_status : Bool
  nfc_reader_active : Bool
  monitor_timer_active : Bool
deriving DecidableEq, Repr

/-- Observable side effects a handler requests: scene switches and sounds
issued synchronously, and `QTimer.singleShot` deferred callbacks with
their delay in milliseconds. -/
inductive Event where
  | scene (s : SceneType)
  | sound_success
  | sound_fail
  | delayed_scene (ms : Nat) (s : SceneType)
  | delayed_finger (ms : Nat) (hajj_id : String)
  | delayed_start_trip (ms : Nat)
  | delayed_timer_start (ms : Nat)
deriving DecidableEq, Repr

/-- `handle_scene_change` (`logic/user_workflow.py` lines 82-91): the
`scene_changed` signal toggles `nfc_reader_active` for the card-scan and
finger-scan scenes; every `switch_to_scene` emits this signal, so scene
switches are applied to the state through this function. -/
def handle_scene_change (w : Workflow) (s : SceneType) : Workflow :=
  match s with
  | SceneType.CARD_SCAN => { w with nfc_reader_active := true }
  | SceneType.FINGER_SCAN => { w with nfc_reader_active := false }
  | _ => w

/-- `start_phase_one` (`logic/user_workflow.py` lines 98-103). -/
def start_phase_one (w : Workflow) : Workflow :=
  { w with current_phase := WorkflowPhase.PHASE_ONE,
           nfc_reader_active := true,
           monitor_timer_active := true }

/-- The state set up by `UserWorkflow.__init__` (`logic/user_workflow.py`
lines 46-64): field initialisation followed by `start_phase_one`. -/
def init_workflow : Workflow :=
  start_phase_one
    { current_phase := WorkflowPhase.PHASE_ONE,
      hajj_id_scans := [],
      trip_number := 1,
      trip_start_time := none,
      trip_end_time := none,
      door_status := true,
      nfc_reader_active := true,
      monitor_timer_active := false }

/-- Python truthiness of the walrus test
`if hajj_id := verify_nfc_data(...)`: `None` and the empty string are
falsy. -/
def py_truthy : Option String → Bool
  | none => false
  | some s => s ≠ ""

/-- The card-rejection tail shared by the failure branches of
`handle_nfc_detection` (`logic/user_workflow.py` lines 134-137, 145-147,
149-151): CARD_FAILED scene, failure sound, return to CARD_SCAN after
5000 ms.  The state is unchanged because `handle_scene_change` ignores
WAIT and CARD_FAILED. -/
def card_failed_events : List Event :=
  [Event.scene SceneType.WAIT, Event.scene SceneType.CARD_FAILED,
   Event.sound_fail, Event.delayed_scene 5000 SceneType.CARD_SCAN]

/-- `handle_nfc_detection` (`logic/user_workflow.py` lines 123-151):
guard on PHASE_ONE, switch to WAIT, decode via `verify_nfc_data`, registry
lookup (`get_hajj_records` may raise), then either schedule the deferred
fingerprint step (2000 ms) or reject.  The only state change on the accept
path is `nfc_reader_active := false`, via the FINGER_SCAN scene signal. -/
def handle_nfc_detection (env : Env)
    (encryption_manager : Option (String → Except Unit String))
    (w : Workflow) (nfc_data : String) : Workflow × List Event :=
  if w.current_phase ≠ WorkflowPhase.PHASE_ONE then (w, [])
  else
    let w := handle_scene_change w SceneType.WAIT
    match verify_nfc_data nfc_data encryption_manager with
    | some hajj_id =>
      if hajj_id = "" then (w, card_failed_events)
      else
        match env.records with
        | .error _ => (w, card_failed_events)
        | .ok hajj_records =>
          if hajj_records.any (fun record => record.hajj_id = hajj_id) then
            (handle_scene_change w SceneType.FINGER_SCAN,
             [Event.scene SceneType.WAIT, Event.sound_success,
              Event.scene SceneType.FINGER_SCAN,
              Event.delayed_finger 2000 hajj_id])
          else (w, card_failed_events)
    | none => (w, card_failed_events)

/-- The fingerprint-rejection tail of `handle_fingerprint_verification`
(`logic/user_workflow.py` lines 188-192 and the except branch 194-199):
FINGER_FAILED scene, failure sound, return to CARD_SCAN after 3000 ms,
and `nfc_reader_active` re-armed. -/
def finger_failed (w : Workflow) : Workflow × List Event :=
  ({ w with nfc_reader_active := true },
   [Event.scene SceneType.FINGER_FAILED, Event.sound_fail,
    Event.delayed_scene 3000 SceneType.CARD_SCAN])

/-- The access-denied branch of `handle_fingerprint_verification`
(`logic/user_workflow.py` lines 164-168): no stored record or no
fingerprint data. -/
def access_denied (w : Workflow) : Workflow × List Event :=
  ({ w with nfc_reader_active := true },
   [Event.scene SceneType.ACCESS_DENIED, Event.sound_fail])

/-- `handle_fingerprint_verification` (`logic/user_workflow.py`
lines 154-199): guard on PHASE_ONE; re-fetch the registry; find the first
record with the presented `hajj_id` (`next(...)`); require its
`fingerprint_data`; convert the stored location with `int(...)`
(failure raises into the except branch); call
`check_specific_finger(stored_location)`; on a match append the id to
`hajj_id_scans` unless already present and show SUCCESS. -/
def handle_fingerprint_verification (env : Env) (w : Workflow)
    (hajj_id : String) : Workflow × List Event :=
  if w.current_phase ≠ WorkflowPhase.PHASE_ONE then (w, [])
  else
    match env.records with
    | .error _ => finger_failed w
    | .ok hajj_records =>
      match hajj_records.find? (fun record => record.hajj_id = hajj_id) with
      | none => access_denied w
      | some stored_record =>
        match stored_record.fingerprint_data with
        | none => access_denied w
        | some fd =>
          match fd.location.bind py_int with
          | none => finger_failed w
          | some stored_location =>
            match env.sensor stored_location with
            | none => finger_failed w
            | some result =>
              if result.matched then
                let w :=
                  if hajj_id ∈ w.hajj_id_scans then w
                  else { w with hajj_id_scans := w.hajj_id_scans ++ [hajj_id] }
                (handle_scene_change w SceneType.SUCCESS,
                 [Event.sound_success, Event.scene SceneType.SUCCESS,
                  Event.delayed_scene 3000 SceneType.CARD_SCAN])
              else finger_failed w

/-- `start_phase_two` (`logic/user_workflow.py` lines 208-214). -/
def start_phase_two (w : Workflow) : Workflow × List Event :=
  if w.current_phase ≠ WorkflowPhase.PHASE_TWO then (w, [])
  else
    (handle_scene_change { w with nfc_reader_active := false }
       SceneType.PIN_ENTRY,
     [Event.scene SceneType.PIN_ENTRY])

/-- `transition_to_phase_two` (`logic/user_workflow.py` lines 201-206):
stop the monitor timer, set PHASE_TWO, then `start_phase_two`. -/
def transition_to_phase_two (w : Workflow) : Workflow × List Event :=
  start_phase_two
    { w with monitor_timer_active := false,
             current_phase := WorkflowPhase.PHASE_TWO }

/-- `reset_for_new_trip` (`logic/user_workflow.py` lines 287-303):
clear the roster and timestamps, increment the trip number, return to
PHASE_ONE with the door open and the reader armed, switch to CARD_SCAN,
and schedule the monitor timer restart after 500 ms. -/
def reset_for_new_trip (w : Workflow) : Workflow × List Event :=
  let w :=
    { w with hajj_id_scans := [],
             trip_start_time := none,
             trip_end_time := none,
             trip_number := w.trip_number + 1,
             current_phase := WorkflowPhase.PHASE_ONE,
             door_status := true,
             nfc_reader_active := true }
  (handle_scene_change w SceneType.CARD_SCAN,
   [Event.scene SceneType.CARD_SCAN, Event.delayed_timer_start 500])

/-- The mutable fields of `WorkflowPinEntry` (`ui/pyside6_scenes.py`
lines 505-513): the digits entered so far and the configured PIN
(`"1234"` in the source). -/
structure PinEntry where
  current_pin : String
  correct_pin : String
deriving DecidableEq, Repr

/-- The initial `WorkflowPinEntry` state (`ui/pyside6_scenes.py`
lines 512-513). -/
def pin_entry_init : PinEntry :=
  { current_pin := "", correct_pin := "1234" }

/-- User-visible effects of the PIN pad: a status-label message or the
deferred `pin_verified` signal emission (`QTimer.singleShot(500, ...)`). -/
inductive PinEvent where
  | status (msg : String)
  | pin_verified_emit (ms : Nat)
deriving DecidableEq, Repr

/-- `WorkflowPinEntry.add_digit` (`ui/pyside6_scenes.py` lines 638-642):
digits are accepted only while fewer than four are entered. -/
def add_digit (p : PinEntry) (digit : String) : PinEntry :=
  if p.current_pin.length < 4 then
    { p with current_pin := p.current_pin ++ digit }
  else p

/-- `WorkflowPinEntry.verify_pin` (`ui/pyside6_scenes.py` lines 650-686):
empty input asks for a PIN; the correct PIN clears the field and schedules
`pin_verified.emit` after 500 ms; anything else shows "Incorrect PIN" and
clears the field. -/
def verify_pin (p : PinEntry) : PinEntry × List PinEvent :=
  if p.current_pin = "" then (p, [PinEvent.status "Please enter PIN"])
  else if p.current_pin = p.correct_pin then
    ({ p with current_pin := "" }, [PinEvent.pin_verified_emit 500])
  else
    ({ p with current_pin := "" }, [PinEvent.status "Incorrect PIN"])

/-- `SceneManager.handle_pin_verified` (`ui/pyside6_scenes.py`
lines 799-808): only when the engine is in PHASE_TWO, switch to the
headcount-processing scene and schedule `workflow.start_trip` after
1000 ms; otherwise nothing happens. -/
def handle_pin_verified (w : Workflow) : Workflow × List Event :=
  if w.current_phase = WorkflowPhase.PHASE_TWO then
    (handle_scene_change w SceneType.HEADCOUNT_PROCESSING,
     [Event.scene SceneType.HEADCOUNT_PROCESSING,
      Event.delayed_start_trip 1000])
  else (w, [])

/-- The exact success condition of the credential sequence inside
`handle_fingerprint_verification`, read off the source branch by branch:
registry fetch succeeds, the first record with the presented id exists and
has fingerprint data, its stored location converts to an integer, and the
sensor comparison at that location returns a dict whose `matched` flag is
true. -/
def admit_ok (env : Env) (i : String) : Bool :=
  match env.records with
  | .error _ => false
  | .ok recs =>
    match recs.find? (fun record => record.hajj_id = i) with
    | none => false
    | some stored_record =>
      match stored_record.fingerprint_data with
      | none => false
      | some fd =>
        match fd.location.bind py_int with
        | none => false
        | some stored_location =>
          match env.sensor stored_location with
          | none => false
          | some result => result.matched

/-- The Scenario-A registry record of spec §8: id H001 with stored
fingerprint location "12". -/
def sample_record : HajjRecord :=
  { hajj_id := "H001", name := "Ahmad",
    fingerprint_data := some { location := some "12" } }

/-- Concrete attempt environment: registry holding `sample_record` and a
sensor that matches at location 12 with confidence 80. -/
def sample_env : Env :=
  { records := Except.ok [sample_record],
    sensor := fun loc =>
      if loc = 12 then
        some { matched := true, template_id := 12, confidence := 80 }
      else none }

/-- Attempt environment whose sensor reports a template match at
location 12 but with confidence 10, below the 50 convention. -/
def low_confidence_env : Env :=
  { records := Except.ok [sample_record],
    sensor := fun loc =>
      if loc = 12 then
        some { matched := true, template_id := 12, confidence := 10 }
      else none }

/-- A workflow state sitting in PHASE_TWO (door closed, trip side). -/
def phase_two_state : Workflow :=
  { init_workflow with current_phase := WorkflowPhase.PHASE_TWO }

/-- Unfolding of `admit_ok` into the chain of successful steps. -/
theorem admit_ok_iff (env : Env) (i : String) :
    admit_ok env i = true ↔
      ∃ recs stored_record fd stored_location result,
        env.records = Except.ok recs ∧
        recs.find? (fun record => record.hajj_id = i) = some stored_record ∧
        stored_record.fingerprint_data = some fd ∧
        fd.location.bind py_int = some stored_location ∧
        env.sensor stored_location = some result ∧
        result.matched = true := by
  constructor
  · intro h
    unfold admit_ok at h
    cases hr : env.records with
    | error e => simp only [hr] at h; exact Bool.noConfusion h
    | ok recs =>
      simp only [hr] at h
      cases hf : recs.find? (fun record => record.hajj_id = i) with
      | none => simp only [hf] at h; exact Bool.noConfusion h
      | some stored_record =>
        simp only [hf] at h
        cases hfd : stored_record.fingerprint_data with
        | none => simp only [hfd] at h; exact Bool.noConfusion h
        | some fd =>
          simp only [hfd] at h
          cases hloc : fd.location.bind py_int with
          | none => simp only [hloc] at h; exact Bool.noConfusion h
          | some stored_location =>
            simp only [hloc] at h
            cases hs : env.sensor stored_location with
            | none => simp only [hs] at h; exact Bool.noConfusion h
            | some result =>
              simp only [hs] at h
              exact ⟨recs, stored_record, fd, stored_location, result,
                rfl, hf, hfd, hloc, hs, h⟩
  · rintro ⟨recs, stored_record, fd, stored_location, result,
      hr, hf, hfd, hloc, hs, hm⟩
    unfold admit_ok
    simp only [hr, hf, hfd, hloc, hs]
    exact hm

/-- Complete characterisation of how `handle_fingerprint_verification`
changes the roster: the presented id is appended exactly when the phase
guard passes, the credential chain succeeds, and the id is not already
admitted; every other branch leaves the roster untouched. -/
theorem hfv_roster (env : Env) (w : Workflow) (j : String) :
    (handle_fingerprint_verification env w j).1.hajj_id_scans =
      if w.current_phase = WorkflowPhase.PHASE_ONE ∧ admit_ok env j = true ∧
          j ∉ w.hajj_id_scans
      then w.hajj_id_scans ++ [j] else w.hajj_id_scans := by
  unfold handle_fingerprint_verification
  by_cases hph : w.current_phase = WorkflowPhase.PHASE_ONE
  · simp only [hph, ne_eq, not_true_eq_false, if_false, true_and]
    cases hr : env.records with
    | error e => simp [finger_failed, admit_ok, hr]
    | ok recs =>
      simp only
      cases hf : recs.find? (fun record => record.hajj_id = j) with
      | none => simp [access_denied, admit_ok, hr, hf]
      | some stored_record =>
        simp only
        cases hfd : stored_record.fingerprint_data with
        | none => simp [access_denied, admit_ok, hr, hf, hfd]
        | some fd =>
          simp only
          cases hloc : fd.location.bind py_int with
          | none => simp [finger_failed, admit_ok, hr, hf, hfd, hloc]
          | some stored_location =>
            simp only
            cases hs : env.sensor stored_location with
            | none => simp [finger_failed, admit_ok, hr, hf, hfd, hloc, hs]
            | some result =>
              simp only
              cases hm : result.matched with
              | false => simp [finger_failed, admit_ok, hr, hf, hfd, hloc, hs, hm]
              | true =>
                by_cases hj : j ∈ w.hajj_id_scans
                · simp [admit_ok, hr, hf, hfd, hloc, hs, hm, hj,
                    handle_scene_change]
                · simp [admit_ok, hr, hf, hfd, hloc, hs, hm, hj,
                    handle_scene_change]
  · simp [hph]

/-- C10: with no encryption manager configured, `verify_nfc_data` returns
the raw card payload unchanged as the passenger identifier, and whenever
the decryptor raises it returns `none` instead of propagating the
exception. -/
theorem C10_nfc_decode_bypass_and_catch :
    (∀ nfc_data : String, verify_nfc_data nfc_data none = some nfc_data) ∧
    (∀ (nfc_data : String) (em : String → Except Unit String) (e : Unit),
      em nfc_data = Except.error e →
      verify_nfc_data nfc_data (some em) = none) := by
  refine ⟨fun _ => rfl, fun nfc_data em e h => ?_⟩
  simp [verify_nfc_data, h]

/-- Witness for C10: a concrete payload against a decryptor that raises. -/
theorem C10_witness :
    verify_nfc_data "H001" (some fun _ => Except.error ()) = none :=
  C10_nfc_decode_bypass_and_catch.2 "H001" (fun _ => Except.error ()) () rfl

/-- C9: `perform_headcount_check` always returns a result record; with no
camera manager it reports failure with detected count 0, and when sampling
raises it also reports failure with detected count 0 instead of
propagating the exception. -/
theorem C9_headcount_never_crashes :
    (∀ n : Int, perform_headcount_check none n =
      { success := false, message := "No camera manager available",
        scanned_count := n, detected_count := 0 }) ∧
    (∀ (cm : CameraManager) (n : Int) (e : String),
      cm.get_three_counts = Except.error e →
      perform_headcount_check (some cm) n =
        { success := false,
          message := "Error during headcount check: " ++ e,
          scanned_count := n, detected_count := 0 }) := by
  refine ⟨fun _ => rfl, fun cm n e h => ?_⟩
  simp [perform_headcount_check, h]

/-- Witness for C9: a camera whose sampling raises. -/
theorem C9_witness :
    perform_headcount_check
        (some { get_three_counts := Except.error "camera offline" }) 3 =
      { success := false,
        message := "Error during headcount check: camera offline",
        scanned_count := 3, detected_count := 0 } :=
  C9_headcount_never_crashes.2
    { get_three_counts := Except.error "camera offline" } 3 "camera offline" rfl

/-- C2: for every scanned count and triple of samples, the headcount check
reports the maximum of the three samples as the detected count and
succeeds exactly when that maximum equals the scanned count; in
particular (2,3,3) against roster size 3 and (0,0,1) against roster size 1
both succeed. -/
theorem C2_headcount_max_policy :
    (∀ (cm : CameraManager) (n s1 s2 s3 : Int),
      cm.get_three_counts = Except.ok (s1, s2, s3) →
      (perform_headcount_check (some cm) n).detected_count =
        max s1 (max s2 s3) ∧
      ((perform_headcount_check (some cm) n).success = true ↔
        max s1 (max s2 s3) = n)) ∧
    (perform_headcount_check (some { get_three_counts := Except.ok (2, 3, 3) }) 3 =
      { success := true, message := "Headcount verified",
        scanned_count := 3, detected_count := 3 }) ∧
    (perform_headcount_check (some { get_three_counts := Except.ok (0, 0, 1) }) 1 =
      { success := true, message := "Headcount verified",
        scanned_count := 1, detected_count := 1 }) := by
  refine ⟨fun cm n s1 s2 s3 h => ?_, by decide, by decide⟩
  by_cases hc : max s1 (max s2 s3) = n
  · constructor
    · simp [perform_headcount_check, h, hc]
    · simp [perform_headcount_check, h, hc]
  · constructor
    · simp [perform_headcount_check, h, hc]
    · simp [perform_headcount_check, h, hc]

/-- Witness for C2 at samples (2,3,3) and scanned count 3. -/
theorem C2_witness :
    (perform_headcount_check (some { get_three_counts := Except.ok (2, 3, 3) })
        3).detected_count = max 2 (max 3 3) ∧
    ((perform_headcount_check (some { get_three_counts := Except.ok (2, 3, 3) })
        3).success = true ↔ max 2 (max 3 3) = (3 : Int)) :=
  C2_headcount_max_policy.1 { get_three_counts := Except.ok (2, 3, 3) } 3 2 3 3 rfl

/-- C7: with configured PIN "1234", the submissions "0000" and "9999" are
rejected with the visible "Incorrect PIN" error, "1234" schedules the
`pin_verified` emission; no wrong submission ever emits `pin_verified`
(so the engine state is untouched by it), and the emitted signal, handled
while the engine is in PHASE_TWO, switches to the headcount-processing
step and schedules `start_trip` while leaving every engine field
unchanged. -/
theorem C7_pin_gate :
    (verify_pin { current_pin := "0000", correct_pin := "1234" } =
      ({ current_pin := "", correct_pin := "1234" },
       [PinEvent.status "Incorrect PIN"])) ∧
    (verify_pin { current_pin := "9999", correct_pin := "1234" } =
      ({ current_pin := "", correct_pin := "1234" },
       [PinEvent.status "Incorrect PIN"])) ∧
    (verify_pin { current_pin := "1234", correct_pin := "1234" } =
      ({ current_pin := "", correct_pin := "1234" },
       [PinEvent.pin_verified_emit 500])) ∧
    (∀ (p : PinEntry) (ms : Nat), p.current_pin ≠ p.correct_pin →
      PinEvent.pin_verified_emit ms ∉ (verify_pin p).2) ∧
    (∀ w : Workflow, w.current_phase = WorkflowPhase.PHASE_TWO →
      handle_pin_verified w =
        (w, [Event.scene SceneType.HEADCOUNT_PROCESSING,
             Event.delayed_start_trip 1000])) := by
  refine ⟨by decide, by decide, by decide, ?_, ?_⟩
  · intro p ms hne
    unfold verify_pin
    by_cases hempty : p.current_pin = ""
    · simp [hempty]
    · simp [hempty, hne]
  · intro w h
    simp [handle_pin_verified, h, handle_scene_change]

/-- Witness for C7: wrong submission "0000" emits no verification signal,
and the verified signal in PHASE_TWO starts the headcount step. -/
theorem C7_witness :
    (PinEvent.pin_verified_emit 500 ∉
      (verify_pin { current_pin := "0000", correct_pin := "1234" }).2) ∧
    handle_pin_verified phase_two_state =
      (phase_two_state,
       [Event.scene SceneType.HEADCOUNT_PROCESSING,
        Event.delayed_start_trip 1000]) :=
  ⟨C7_pin_gate.2.2.2.1 { current_pin := "0000", correct_pin := "1234" } 500
      (by decide),
   C7_pin_gate.2.2.2.2 phase_two_state rfl⟩

/-- C8: the deferred fingerprint step, fired in any phase other than
PHASE_ONE, returns immediately with no state change and no side effects;
in particular after the door-closed transition (`transition_to_phase_two`)
any pending attempt is abandoned without admitting anyone. -/
theorem C8_inflight_attempt_abandoned :
    (∀ (env : Env) (w : Workflow) (hajj_id : String),
      w.current_phase ≠ WorkflowPhase.PHASE_ONE →
      handle_fingerprint_verification env w hajj_id = (w, [])) ∧
    (∀ (env : Env) (w : Workflow) (hajj_id : String),
      handle_fingerprint_verification env (transition_to_phase_two w).1
        hajj_id = ((transition_to_phase_two w).1, [])) := by
  have h1 : ∀ (env : Env) (w : Workflow) (hajj_id : String),
      w.current_phase ≠ WorkflowPhase.PHASE_ONE →
      handle_fingerprint_verification env w hajj_id = (w, []) := by
    intro env w hajj_id h
    simp [handle_fingerprint_verification, h]
  refine ⟨h1, fun env w hajj_id => h1 env _ hajj_id ?_⟩
  simp [transition_to_phase_two, start_phase_two, handle_scene_change]

/-- Witness for C8: a PHASE_TWO state with a pending id is left alone. -/
theorem C8_witness :
    handle_fingerprint_verification sample_env phase_two_state "H001" =
      (phase_two_state, []) :=
  C8_inflight_attempt_abandoned.1 sample_env phase_two_state "H001" (by decide)

/-- C5: the trip number starts at 1; `reset_for_new_trip` increments it by
exactly one, empties the roster, re-enters PHASE_ONE with the reader armed
and the monitor timer restart scheduled, and a subsequent successful
admission populates the new empty roster with exactly that passenger. -/
theorem C5_reset_for_new_trip :
    init_workflow.trip_number = 1 ∧
    (∀ w : Workflow,
      (reset_for_new_trip w).1.trip_number = w.trip_number + 1 ∧
      (reset_for_new_trip w).1.hajj_id_scans = [] ∧
      (reset_for_new_trip w).1.current_phase = WorkflowPhase.PHASE_ONE ∧
      (reset_for_new_trip w).1.nfc_reader_active = true ∧
      (reset_for_new_trip w).1.door_status = true ∧
      (reset_for_new_trip w).2 =
        [Event.scene SceneType.CARD_SCAN, Event.delayed_timer_start 500]) ∧
    (∀ (env : Env) (w : Workflow) (hajj_id : String),
      admit_ok env hajj_id = true →
      (handle_fingerprint_verification env (reset_for_new_trip w).1
          hajj_id).1.hajj_id_scans = [hajj_id]) := by
  refine ⟨rfl, fun w => ?_, fun env w hajj_id h => ?_⟩
  · simp [reset_for_new_trip, handle_scene_change]
  · rw [hfv_roster]
    simp [reset_for_new_trip, handle_scene_change, h]

/-- Witness for C5: after a reset, admitting H001 in `sample_env` yields
the singleton roster. -/
theorem C5_witness :
    (handle_fingerprint_verification sample_env
        (reset_for_new_trip phase_two_state).1 "H001").1.hajj_id_scans =
      ["H001"] :=
  C5_reset_for_new_trip.2.2 sample_env phase_two_state "H001" (by decide)

/-- C4: under a successful card+fingerprint verification in PHASE_ONE, an
identifier already on the roster leaves the whole engine state unchanged
while still emitting the success feedback, and an absent identifier is
appended exactly once. -/
theorem C4_admission_idempotent :
    ∀ (env : Env) (w : Workflow) (hajj_id : String)
      (recs : List HajjRecord) (stored_record : HajjRecord)
      (fd : FingerprintData) (stored_location : Int) (result : FingerResult),
      w.current_phase = WorkflowPhase.PHASE_ONE →
      env.records = Except.ok recs →
      recs.find? (fun record => record.hajj_id = hajj_id) =
        some stored_record →
      stored_record.fingerprint_data = some fd →
      fd.location.bind py_int = some stored_location →
      env.sensor stored_location = some result →
      result.matched = true →
      (hajj_id ∈ w.hajj_id_scans →
        (handle_fingerprint_verification env w hajj_id).1 = w) ∧
      (hajj_id ∉ w.hajj_id_scans →
        (handle_fingerprint_verification env w hajj_id).1.hajj_id_scans =
          w.hajj_id_scans ++ [hajj_id]) ∧
      (handle_fingerprint_verification env w hajj_id).2 =
        [Event.sound_success, Event.scene SceneType.SUCCESS,
         Event.delayed_scene 3000 SceneType.CARD_SCAN] := by
  intro env w hajj_id recs stored_record fd stored_location result
    hph hr hf hfd hloc hs hm
  unfold handle_fingerprint_verification
  simp only [hph, ne_eq, not_true_eq_false, if_false, hr, hf, hfd, hloc, hs,
    hm, if_true]
  by_cases hj : hajj_id ∈ w.hajj_id_scans
  · simp [hj, handle_scene_change]
  · simp [hj, handle_scene_change]

/-- Witness for C4: re-presenting H001 with it already on the roster
changes nothing. -/
theorem C4_witness :
    ({ init_workflow with hajj_id_scans := ["H001"] } :
        Workflow).hajj_id_scans = ["H001"] ∧
    (handle_fingerprint_verification sample_env
        { init_workflow with hajj_id_scans := ["H001"] } "H001").1 =
      { init_workflow with hajj_id_scans := ["H001"] } :=
  ⟨rfl,
   (C4_admission_idempotent sample_env
      { init_workflow with hajj_id_scans := ["H001"] } "H001"
      [sample_record] sample_record { location := some "12" } 12
      { matched := true, template_id := 12, confidence := 80 }
      rfl rfl (by decide) rfl (by decide) (by decide) rfl).1 (by decide)⟩

/-- C6: in PHASE_ONE, a card whose payload decodes to an identifier with
no registry record — and likewise a card whose decoding fails — ends as a
card rejection with failure feedback and the deferred return to the scan
scene, the engine state (roster included) is unchanged, and no fingerprint
step is ever scheduled. -/
theorem C6_unknown_card_rejected :
    ∀ (env : Env) (em : Option (String → Except Unit String))
      (w : Workflow) (nfc_data : String),
      w.current_phase = WorkflowPhase.PHASE_ONE →
      (∀ (recs : List HajjRecord) (hajj_id : String),
        env.records = Except.ok recs →
        verify_nfc_data nfc_data em = some hajj_id → hajj_id ≠ "" →
        (recs.any fun record => record.hajj_id = hajj_id) = false →
        handle_nfc_detection env em w nfc_data = (w, card_failed_events)) ∧
      (verify_nfc_data nfc_data em = none →
        handle_nfc_detection env em w nfc_data = (w, card_failed_events)) ∧
      (∀ (ms : Nat) (hajj_id : String),
        Event.delayed_finger ms hajj_id ∉ card_failed_events) := by
  intro env em w nfc_data hph
  refine ⟨fun recs hajj_id hr hv hne ha => ?_, fun hv => ?_,
    fun ms hajj_id => by simp [card_failed_events]⟩
  · unfold handle_nfc_detection
    simp only [hph, ne_eq, not_true_eq_false, if_false, hv, hr, hne, ha,
      handle_scene_change, Bool.false_eq_true, if_false]
  · unfold handle_nfc_detection
    simp [hph, hv, handle_scene_change]

/-- Witness for C6: spec Scenario B (unknown id H002) and a card whose
decryption raises. -/
theorem C6_witness :
    handle_nfc_detection sample_env none init_workflow "H002" =
      (init_workflow, card_failed_events) ∧
    handle_nfc_detection sample_env (some fun _ => Except.error ())
        init_workflow "garbled" = (init_workflow, card_failed_events) :=
  ⟨(C6_unknown_card_rejected sample_env none init_workflow "H002"
      rfl).1 [sample_record] "H002" rfl rfl (by decide) (by decide),
   (C6_unknown_card_rejected sample_env (some fun _ => Except.error ())
      init_workflow "garbled" rfl).2.1 rfl⟩

/-- C1: the card-detection handler never touches the roster, and whenever
the fingerprint handler adds an identifier, that identifier is the
presented one and, within the same call, the registry lookup by it
succeeded (a record with that `hajj_id` exists, with fingerprint data)
and the sensor comparison against the location stored in that very record
returned a match. -/
theorem C1_admission_requires_lookup_and_match :
    (∀ (env : Env) (em : Option (String → Except Unit String))
       (w : Workflow) (nfc_data : String),
      (handle_nfc_detection env em w nfc_data).1.hajj_id_scans =
        w.hajj_id_scans) ∧
    (∀ (env : Env) (w : Workflow) (presented admitted : String),
      admitted ∉ w.hajj_id_scans →
      admitted ∈
        (handle_fingerprint_verification env w presented).1.hajj_id_scans →
      admitted = presented ∧
      ∃ (recs : List HajjRecord) (stored_record : HajjRecord)
        (fd : FingerprintData) (stored_location : Int)
        (result : FingerResult),
        env.records = Except.ok recs ∧
        recs.find? (fun record => record.hajj_id = presented) =
          some stored_record ∧
        stored_record.hajj_id = presented ∧
        stored_record.fingerprint_data = some fd ∧
        fd.location.bind py_int = some stored_location ∧
        env.sensor stored_location = some result ∧
        result.matched = true) := by
  constructor
  · intro env em w nfc_data
    unfold handle_nfc_detection
    by_cases hph : w.current_phase = WorkflowPhase.PHASE_ONE
    · simp only [hph, ne_eq, not_true_eq_false, if_false]
      cases hv : verify_nfc_data nfc_data em with
      | none => simp [handle_scene_change, card_failed_events]
      | some hajj_id =>
        simp only
        by_cases he : hajj_id = ""
        · simp [he, handle_scene_change]
        · simp only [he, if_false]
          cases hr : env.records with
          | error e => simp [handle_scene_change]
          | ok recs =>
            simp only
            by_cases ha : (recs.any fun record => record.hajj_id = hajj_id) = true
            · simp [ha, handle_scene_change]
            · simp [ha, handle_scene_change]
    · simp [hph]
  · intro env w presented admitted hnotin hmem
    rw [hfv_roster] at hmem
    by_cases hcond : w.current_phase = WorkflowPhase.PHASE_ONE ∧
        admit_ok env presented = true ∧ presented ∉ w.hajj_id_scans
    · rw [if_pos hcond] at hmem
      rcases List.mem_append.mp hmem with hin | hone
      · exact absurd hin hnotin
      · have heq : admitted = presented := List.mem_singleton.mp hone
        subst heq
        rcases (admit_ok_iff env admitted).mp hcond.2.1 with
          ⟨recs, stored_record, fd, stored_location, result,
            hr, hf, hfd, hloc, hs, hm⟩
        have hid : stored_record.hajj_id = admitted := by
          have := List.find?_some hf
          simpa using this
        exact ⟨rfl, recs, stored_record, fd, stored_location, result,
          hr, hf, hid, hfd, hloc, hs, hm⟩
    · rw [if_neg hcond] at hmem
      exact absurd hmem hnotin

/-- Witness for C1: the admission of H001 in `sample_env` forces the
lookup-and-match conditions. -/
theorem C1_witness :
    "H001" = "H001" ∧
    ∃ (recs : List HajjRecord) (stored_record : HajjRecord)
      (fd : FingerprintData) (stored_location : Int) (result : FingerResult),
      sample_env.records = Except.ok recs ∧
      recs.find? (fun record => record.hajj_id = "H001") =
        some stored_record ∧
      stored_record.hajj_id = "H001" ∧
      stored_record.fingerprint_data = some fd ∧
      fd.location.bind py_int = some stored_location ∧
      sample_env.sensor stored_location = some result ∧
      result.matched = true :=
  C1_admission_requires_lookup_and_match.2 sample_env init_workflow
    "H001" "H001" (by decide) (by decide)

/-- C3 counterexample: with the sensor comparison reporting a match at
the stored location with confidence 10 (below 50), the identifier is
still admitted to the roster, so admission does not require confidence
at least 50. -/
theorem C3_counterexample :
    low_confidence_env.sensor 12 =
      some { matched := true, template_id := 12, confidence := 10 } ∧
    ¬ (50 ≤ (10 : Int)) ∧
    (handle_fingerprint_verification low_confidence_env init_workflow
        "H001").1.hajj_id_scans = ["H001"] :=
  ⟨by decide, by decide, by decide⟩

/-- C3 amended: on the admission path the sensor `matched` flag alone
decides admission — the reported confidence is never compared against 50
there; the 50 threshold is enforced only by the helper
`verify_fingerprint`, which returns false whenever the reported
confidence is below 50. -/
theorem C3_match_flag_authoritative :
    (∀ (env : Env) (w : Workflow) (hajj_id : String),
      w.current_phase = WorkflowPhase.PHASE_ONE →
      hajj_id ∉ w.hajj_id_scans →
      (hajj_id ∈
          (handle_fingerprint_verification env w hajj_id).1.hajj_id_scans ↔
        admit_ok env hajj_id = true)) ∧
    (∀ (records : Except Unit (List HajjRecord)) (fp_id confidence : Int)
       (hajj_id : String),
      confidence < 50 →
      verify_fingerprint records (Except.ok (some (fp_id, confidence)))
        hajj_id = false) := by
  constructor
  · intro env w hajj_id hph hnotin
    rw [hfv_roster]
    by_cases hok : admit_ok env hajj_id = true
    · simp [hph, hok, hnotin]
    · simp [hph, hok, hnotin]
  · intro records fp_id confidence hajj_id hlt
    unfold verify_fingerprint
    simp [not_le.mpr hlt]

/-- Witness for C3: the low-confidence environment admits H001 exactly
because the matched flag is set, and the threshold-enforcing helper
rejects the same confidence. -/
theorem C3_witness :
    ("H001" ∈
        (handle_fingerprint_verification low_confidence_env init_workflow
          "H001").1.hajj_id_scans ↔
      admit_ok low_confidence_env "H001" = true) ∧
    verify_fingerprint (Except.ok [sample_record])
      (Except.ok (some (12, 10))) "H001" = false :=
  ⟨C3_match_flag_authoritative.1 low_confidence_env init_workflow "H001"
      rfl (by decide),
   C3_match_flag_authoritative.2 (Except.ok [sample_record]) 12 10 "H001"
      (by decide)⟩

end HajjAuth
